import Mathlib

/-!
Shallow embedding of `bot.py` from tankist256/marketplace-telegram-bot.

Modelling conventions:
* The sqlite `orders` table is a `List Order`; row ids are assigned by
  AUTOINCREMENT starting from 1 and rows are never deleted, so the row at list
  position `i` has id `i + 1` and `lastrowid` after an insert is the new length.
* Columns that can hold NULL (every field coming from `state.get_data()` /
  `message.text`) are `Option String`; `price REAL` is `ℚ` (the only two values,
  100.0 and 80.0, are exact).
* An inbound Telegram message is an `Event`, classified the way the handlers
  inspect it: plain text, a document (with file name), a photo, or anything
  else; a document/photo message has `message.text = None`.
* Each aiogram handler becomes a function returning a `StepResult`: the new FSM
  state (`None` is `ConvState.idle`; the declared-but-never-entered
  `choosing_product` state is omitted), the new FSM context data, the new
  orders table, and the list of texts sent with `message.answer`.  Notifications
  sent with `bot.send_message` (to the admin or to a user) and file downloads
  are external side effects and are not part of the result.
* `handle` is one dispatch of the aiogram router: handlers are tried in
  registration order, the first one whose filters match runs, and if none
  matches the message is ignored (no reply is produced).
* Python primitives: `str.split()` is `words`, `needle in hay` is `strHas`,
  `str.startswith` is `strStarts`, `int(...)` is `pyInt` (modelled for
  plain optionally-signed decimal strings, which is all the program receives),
  `str.lower()` is `lowerStr`.
-/

namespace MarketplaceBot

/-- Python `str.split()` (split on runs of whitespace, drop empty parts),
working on the character list; `acc` is the current word reversed. -/
def wordsAux : List Char → List Char → List String
  | [], acc => if acc.isEmpty then [] else [String.mk acc.reverse]
  | c :: cs, acc =>
    if c.isWhitespace then
      if acc.isEmpty then wordsAux cs [] else String.mk acc.reverse :: wordsAux cs []
    else wordsAux cs (c :: acc)

def words (t : String) : List String := wordsAux t.toList []

/-- First whitespace-separated token of a text (used to model the aiogram
`Command` filter, which matches on the leading `/command` token). -/
def firstToken (t : String) : String := (words t).headD ""

/-- `needle` occurs as a contiguous run in the character list. -/
def hasInfixChars (needle : List Char) : List Char → Bool
  | [] => needle.isEmpty
  | c :: cs => needle.isPrefixOf (c :: cs) || hasInfixChars needle cs

/-- Python `needle in hay` (substring containment). -/
def strHas (needle hay : String) : Bool := hasInfixChars needle.toList hay.toList

/-- Python `t.startswith(p)`. -/
def strStarts (p t : String) : Bool := p.toList.isPrefixOf t.toList

/-- f-string rendering of a possibly-NULL text column (`None` prints as `None`). -/
def optStr : Option String → String
  | some s => s
  | none => "None"

def optNatStr : Option Nat → String
  | some n => toString n
  | none => "None"

/-- Decimal digits accumulated left to right; `none` on a non-digit. -/
def parseNatAux (acc : Nat) : List Char → Option Nat
  | [] => some acc
  | c :: cs => if c.isDigit then parseNatAux (acc * 10 + (c.toNat - 48)) cs else none

def parseNat (l : List Char) : Option Nat :=
  if l.isEmpty then none else parseNatAux 0 l

/-- Python `int(...)` on the strings this program receives: an optional minus
sign followed by decimal digits (the further laxities of `int` — surrounding
whitespace, a plus sign, underscore grouping — never matter here: they all
denote the same ids on well-formed admin input and fail as "invalid" wording
differences otherwise). -/
def pyInt (t : String) : Option Int :=
  match t.toList with
  | '-' :: rest => (parseNat rest).map (fun n => -(n : Int))
  | l => (parseNat l).map (fun n => (n : Int))

/-- Python `str.lower()` (ASCII, which covers every comparison the program
makes). -/
def lowerStr (t : String) : String := String.mk (t.toList.map Char.toLower)

/-- One row of the `orders` table (without the implicit id, see the header
comment: the row at position `i` of the table has id `i + 1`). -/
structure Order where
  user_id : Nat
  username : String
  product_type : Option String
  template_choice : Option String
  details : Option String
  files : Option String
  price : ℚ
  payment_method : Option String
  payment_reference : Option String
  status : String
  created_at : String
deriving DecidableEq, Repr

/-- `save_order`: `INSERT INTO orders ... VALUES (...)`, returning `lastrowid`
(the new length, since ids are consecutive from 1 and rows are never deleted). -/
def save_order (db : List Order) (o : Order) : List Order × Nat :=
  (db ++ [o], db.length + 1)

/-- The rows of the table paired with their ids, ids counting from `i`. -/
def rowsFrom (i : Nat) : List Order → List (Nat × Order)
  | [] => []
  | o :: rest => (i, o) :: rowsFrom (i + 1) rest

/-- `SELECT * FROM orders WHERE id = ?` scanning ids from `i` (first match;
ids are distinct, so at most one row matches). -/
def getFrom (i : Nat) (oid : Int) : List Order → Option Order
  | [] => none
  | o :: rest => if (i : Int) = oid then some o else getFrom (i + 1) oid rest

/-- `get_order`. -/
def get_order (db : List Order) (oid : Int) : Option Order := getFrom 1 oid db

/-- `UPDATE orders SET status = ? WHERE id = ?` scanning ids from `i`. -/
def setStatusFrom (i : Nat) (oid : Int) (s : String) : List Order → List Order
  | [] => []
  | o :: rest =>
    (if (i : Int) = oid then { o with status := s } else o) :: setStatusFrom (i + 1) oid s rest

/-- `set_order_status`. -/
def set_order_status (db : List Order) (oid : Int) (s : String) : List Order :=
  setStatusFrom 1 oid s db

/-- The inline `UPDATE orders SET payment_reference = ?, status = ? WHERE id = ?`
of the `waiting_payment` handler (status is the literal `'pending_confirm'`); the
id comes from session data and may be absent, in which case the bound NULL
matches no row. -/
def setRefStatusFrom (i : Nat) (oid : Option Nat) (ref : Option String) :
    List Order → List Order
  | [] => []
  | o :: rest =>
    (if oid = some i then { o with payment_reference := ref, status := "pending_confirm" }
     else o) :: setRefStatusFrom (i + 1) oid ref rest

/-- `list_orders`: `SELECT ... ORDER BY id DESC` (all rows, most recent first). -/
def list_orders (db : List Order) : List (Nat × Order) := (rowsFrom 1 db).reverse

/-- The aiogram FSM states; `idle` models FSM state `None` (no conversation in
progress).  The declared `choosing_product` state is never entered by any
handler and is omitted. -/
inductive ConvState where
  | idle
  | choosing_template
  | entering_details
  | uploading_files
  | choosing_payment
  | waiting_payment_ref
deriving DecidableEq, Repr

/-- The FSM context data (`state.update_data` / `state.get_data`); a key that
was never set and a key set to `None` both read back as `None` via `.get`, so
both are `none`. -/
structure SessionData where
  product_type : Option String := none
  template_choice : Option String := none
  details : Option String := none
  files : Option String := none
  payment_method : Option String := none
  order_id : Option Nat := none
deriving DecidableEq, Repr

/-- An inbound message, classified the way the handlers inspect it. -/
inductive Event where
  | text (t : String)
  | document (name : String)
  | photo
  | other
deriving DecidableEq, Repr

/-- `message.text` (text messages only; documents/photos carry no text). -/
def Event.textOf : Event → Option String
  | .text t => some t
  | _ => none

/-- Net effect of dispatching one message: new FSM state, new session data, new
orders table, and the texts sent back to the user with `message.answer`. -/
structure StepResult where
  conv : ConvState
  data : SessionData
  db : List Order
  replies : List String
deriving DecidableEq, Repr

/-- Configuration value `USDT_TRON_ADDRESS` (modelled as the source default). -/
def USDT_TRON_ADDRESS : String := "SET_YOUR_ADDRESS"

/-- Matches `CommandStart()` or `Command("help")`. -/
def isStartHelp (t : String) : Bool :=
  firstToken t == "/start" || firstToken t == "/help"

def isStartHelpEv (ev : Event) : Bool :=
  match ev.textOf with
  | some t => isStartHelp t
  | none => false

/-- Text inputs captured by a handler registered before the per-state handlers
(`cmd_start`, `buy_website`, `buy_bot`): such a text never reaches a per-state
handler. -/
def preempts (t : String) : Bool :=
  isStartHelp t || t == "🌐 Buy a Website" || t == "🤖 Buy a Telegram Bot"

/-- Exact rational rendering of a price (the Python code prints the float;
the two concrete prices are integral, irrelevant to every claim). -/
def ratStr (q : ℚ) : String :=
  if q.den = 1 then toString q.num else toString q.num ++ "/" ++ toString q.den

/-- `/start` and `/help`: clear the state and show the main menu. -/
def cmd_start (db : List Order) : StepResult :=
  ⟨.idle, {}, db, ["Welcome to TANKIST256 marketplace!\nChoose an option:"]⟩

/-- `F.text == '🌐 Buy a Website'`. -/
def buy_website (data : SessionData) (db : List Order) : StepResult :=
  ⟨.choosing_template, { data with product_type := some "Website" }, db,
    ["You chose: Website. Select a template or type \"Custom\" for a custom website."]⟩

/-- `F.text == '🤖 Buy a Telegram Bot'`. -/
def buy_bot (data : SessionData) (db : List Order) : StepResult :=
  ⟨.choosing_template, { data with product_type := some "Telegram Bot" }, db,
    ["You chose: Telegram Bot. Select a template or type \"Custom\" for a custom bot."]⟩

/-- Handler for `OrderStates.choosing_template`. -/
def choose_template (ev : Event) (data : SessionData) (db : List Order) : StepResult :=
  if ev.textOf = some "Cancel" then ⟨.idle, {}, db, ["Order cancelled."]⟩
  else
    ⟨.entering_details, { data with template_choice := ev.textOf }, db,
      ["Please describe your requirements (features, deadline, domain, hosting, budget)."]⟩

/-- Handler for `OrderStates.entering_details`. -/
def details_step (ev : Event) (data : SessionData) (db : List Order) : StepResult :=
  if ev.textOf = some "Cancel" then ⟨.idle, {}, db, ["Order cancelled."]⟩
  else
    ⟨.uploading_files, { data with details := ev.textOf }, db,
      ["If you have files (designs, logos, docs), please send them now. Send \"No files\" if none."]⟩

/-- The `files_info` classification computed in `files_step`: a document tag
with the file name, `photo`, the literal text `no files` case-insensitively
(Python truthiness also requires the text to be non-empty), and the fallback
`files:other` for everything else. -/
def fileTag : Event → String
  | .document name => "document:" ++ name
  | .photo => "photo"
  | .text t => if t ≠ "" ∧ lowerStr t = "no files" then "no files" else "files:other"
  | .other => "files:other"

/-- Handler for `OrderStates.uploading_files` (the file download itself is an
external side effect). -/
def files_step (ev : Event) (data : SessionData) (db : List Order) : StepResult :=
  if ev.textOf = some "Cancel" then ⟨.idle, {}, db, ["Order cancelled."]⟩
  else
    ⟨.choosing_payment, { data with files := some (fileTag ev) }, db,
      ["Choose a payment method:"]⟩

/-- Handler for `OrderStates.choosing_payment`: on a non-cancel input it stores
the payment method, computes the price by category lookup, inserts the order
(status `new`, empty payment reference), then branches by substring containment
on the method text — `USDT` first, then `Manual`, else a fallback that clears
the session.  A non-text message has `message.text = None`: the row is still
inserted, then `'USDT' in payment_method` raises `TypeError`, which the
framework logs, so the session stays at `choosing_payment`. -/
def payment_step (uid : Nat) (un : String) (ev : Event) (data : SessionData)
    (db : List Order) (now : String) : StepResult :=
  if ev.textOf = some "Cancel" then ⟨.idle, {}, db, ["Order cancelled."]⟩
  else
    let data1 := { data with payment_method := ev.textOf }
    let estimated_price : ℚ := if data1.product_type = some "Website" then 100 else 80
    let order : Order :=
      { user_id := uid, username := un, product_type := data1.product_type,
        template_choice := data1.template_choice, details := data1.details,
        files := data1.files, price := estimated_price, payment_method := ev.textOf,
        payment_reference := some "", status := "new", created_at := now }
    let saved := save_order db order
    match ev.textOf with
    | some t =>
      if strHas "USDT" t then
        ⟨.waiting_payment_ref, { data1 with order_id := some saved.2 }, saved.1,
          ["Order #" ++ toString saved.2 ++ " created.\nAmount: " ++
            ratStr estimated_price ++ " USDT\nPay to TRC20 address: " ++
            USDT_TRON_ADDRESS ++
            "\nAfter payment, send the transaction hash here or press \"I paid\" so admin can check."]⟩
      else if strHas "Manual" t then
        ⟨.waiting_payment_ref, { data1 with order_id := some saved.2 }, saved.1,
          ["Order #" ++ toString saved.2 ++ " created.\nEstimated price: " ++
            ratStr estimated_price ++
            " (manual payment).\nPlease contact admin for bank/card details or reply here with confirmation."]⟩
      else
        ⟨.idle, {}, saved.1,
          ["Order #" ++ toString saved.2 ++ " created. We will contact you soon."]⟩
    | none => ⟨.choosing_payment, data1, saved.1, []⟩

/-- Handler for `OrderStates.waiting_payment_ref`. -/
def waiting_payment (ev : Event) (data : SessionData) (db : List Order) : StepResult :=
  if ev.textOf = some "Cancel" then
    ⟨.idle, {}, db, ["Order cancelled. You can start again from main menu."]⟩
  else if ev.textOf = some "I paid" ∨ ev.textOf = some "Contact Admin" then
    ⟨.waiting_payment_ref, data, db,
      ["Please send payment reference (TX hash or payment screenshot) or contact admin."]⟩
  else
    ⟨.idle, {}, setRefStatusFrom 1 data.order_id ev.textOf db,
      ["Thanks — payment reference saved for order #" ++ optNatStr data.order_id ++
        ". Admin will confirm."]⟩

/-- `F.text == '📦 My Orders'` (reachable only with no conversation state,
since every per-state handler is registered earlier and has no text filter). -/
def my_orders (uid : Nat) (data : SessionData) (db : List Order) : StepResult :=
  let rows := ((rowsFrom 1 db).filter (fun p => p.2.user_id = uid)).reverse
  if rows.isEmpty then ⟨.idle, data, db, ["You have no orders yet."]⟩
  else
    ⟨.idle, data, db,
      ["Your orders:\n" ++ String.intercalate "\n" (rows.map (fun p =>
        "#" ++ toString p.1 ++ " — " ++ optStr p.2.product_type ++ " — " ++
          p.2.status ++ " — " ++ p.2.created_at))]⟩

/-- `F.text == '💬 Contact Admin'` (the admin notification is external). -/
def contact_admin (data : SessionData) (db : List Order) : StepResult :=
  ⟨.idle, data, db,
    ["Admin will be notified. You can also contact directly: @YourAdminUsername"]⟩

/-- `Command('orders')`: admin-only listing; a non-admin sender returns
immediately with no reply and no effect. -/
def admin_list_orders (admin uid : Nat) (data : SessionData) (db : List Order) : StepResult :=
  if uid ≠ admin then ⟨.idle, data, db, []⟩
  else
    let rows := list_orders db
    if rows.isEmpty then ⟨.idle, data, db, ["No orders yet."]⟩
    else
      ⟨.idle, data, db,
        [String.intercalate "\n" (rows.map (fun p =>
          "#" ++ toString p.1 ++ " | user:" ++ toString p.2.user_id ++ " | " ++
            p.2.username ++ " | " ++ optStr p.2.product_type ++ " | " ++ p.2.status))]⟩

/-- The detail text of `/order_<id>` (the id printed is the matched row id). -/
def orderDetail (oid : Int) (o : Order) : String :=
  "Order #" ++ toString oid ++ "\nUser: " ++ o.username ++ " (id:" ++
    toString o.user_id ++ ")\nProduct: " ++ optStr o.product_type ++
    "\nTemplate: " ++ optStr o.template_choice ++ "\nDetails: " ++ optStr o.details ++
    "\nFiles: " ++ optStr o.files ++ "\nPrice: " ++ ratStr o.price ++
    "\nPayment: " ++ optStr o.payment_method ++ "\nPayment ref: " ++
    optStr o.payment_reference ++ "\nStatus: " ++ o.status ++ "\nCreated: " ++ o.created_at

/-- `F.text.startswith('/order_')`: admin-only point view.  The id is
`int(text.split('_', 1)[1])`; given the `/order_` prefix that is the text after
its first 7 characters. -/
def admin_view_order (admin uid : Nat) (t : String) (data : SessionData)
    (db : List Order) : StepResult :=
  if uid ≠ admin then ⟨.idle, data, db, []⟩
  else
    match pyInt (String.mk (t.toList.drop 7)) with
    | none => ⟨.idle, data, db, ["Invalid command. Use /order_<id>"]⟩
    | some oid =>
      match get_order db oid with
      | none => ⟨.idle, data, db, ["Order not found"]⟩
      | some o => ⟨.idle, data, db, [orderDetail oid o]⟩

/-- `F.text.startswith('/setstatus')`: admin-only status overwrite (the
follow-up notification to the order's user is external). -/
def admin_set_status (admin uid : Nat) (t : String) (data : SessionData)
    (db : List Order) : StepResult :=
  if uid ≠ admin then ⟨.idle, data, db, []⟩
  else
    match words t with
    | _ :: p1 :: p2 :: _ =>
      match pyInt p1 with
      | none => ⟨.idle, data, db, ["Invalid order id"]⟩
      | some oid =>
        ⟨.idle, data, set_order_status db oid p2,
          ["Order #" ++ toString oid ++ " status set to " ++ p2]⟩
    | _ => ⟨.idle, data, db, ["Usage: /setstatus <order_id> <status>"]⟩

/-- One dispatch of the router: handlers in registration order, first matching
filter wins, no match means the message is ignored. -/
def handle (admin uid : Nat) (un : String) (st : ConvState) (data : SessionData)
    (db : List Order) (ev : Event) (now : String) : StepResult :=
  if isStartHelpEv ev then cmd_start db
  else if ev.textOf = some "🌐 Buy a Website" then buy_website data db
  else if ev.textOf = some "🤖 Buy a Telegram Bot" then buy_bot data db
  else
    match st with
    | .choosing_template => choose_template ev data db
    | .entering_details => details_step ev data db
    | .uploading_files => files_step ev data db
    | .choosing_payment => payment_step uid un ev data db now
    | .waiting_payment_ref => waiting_payment ev data db
    | .idle =>
      if ev.textOf = some "📦 My Orders" then my_orders uid data db
      else if ev.textOf = some "💬 Contact Admin" then contact_admin data db
      else
        match ev.textOf with
        | some t =>
          if firstToken t == "/orders" then admin_list_orders admin uid data db
          else if strStarts "/order_" t then admin_view_order admin uid t data db
          else if strStarts "/setstatus" t then admin_set_status admin uid t data db
          else ⟨.idle, data, db, []⟩
        | none => ⟨.idle, data, db, []⟩

/-- The text inputs at `idle` that some handler recognizes. -/
def recognizedAtIdle (t : String) : Bool :=
  isStartHelp t || t == "🌐 Buy a Website" || t == "🤖 Buy a Telegram Bot" ||
    t == "📦 My Orders" || t == "💬 Contact Admin" || firstToken t == "/orders" ||
    strStarts "/order_" t || strStarts "/setstatus" t

/-- Dispatch a sequence of messages (each with the external timestamp used as
`created_at` if an order is created during that step), starting from the given
FSM state, session data and orders table; the result is the FSM state, session
data and orders table after the last step. -/
def runSteps (admin uid : Nat) (un : String) (st0 : ConvState) (data0 : SessionData)
    (db0 : List Order) : List (Event × String) → ConvState × SessionData × List Order
  | [] => (st0, data0, db0)
  | (ev, now) :: rest =>
    let r := handle admin uid un st0 data0 db0 ev now
    runSteps admin uid un r.conv r.data r.db rest

/-- A sample persisted order used by concrete witnesses. -/
def sampleOrder : Order :=
  { user_id := 7, username := "alice", product_type := some "Website",
    template_choice := some "Custom", details := some "need 5 pages",
    files := some "no files", price := 100,
    payment_method := some "USDT (TRC20) — pay on Tron network",
    payment_reference := some "", status := "new",
    created_at := "2024-01-01T00:00:00" }

/-! ## Helper lemmas -/

theorem preempts_eq_false {t : String} (h : preempts t = false) :
    isStartHelp t = false ∧ t ≠ "🌐 Buy a Website" ∧ t ≠ "🤖 Buy a Telegram Bot" := by
  simp only [preempts, Bool.or_eq_false_iff, beq_eq_false_iff_ne, ne_eq] at h
  exact ⟨h.1.1, h.1.2, h.2⟩

theorem setStatusFrom_length (oid : Int) (s : String) :
    ∀ (db : List Order) (i : Nat), (setStatusFrom i oid s db).length = db.length := by
  intro db
  induction db with
  | nil => intro i; rfl
  | cons o rest ih => intro i; simp [setStatusFrom, ih]

theorem setRefStatusFrom_length (oid : Option Nat) (ref : Option String) :
    ∀ (db : List Order) (i : Nat), (setRefStatusFrom i oid ref db).length = db.length := by
  intro db
  induction db with
  | nil => intro i; rfl
  | cons o rest ih => intro i; simp [setRefStatusFrom, ih]

theorem setRefStatusFrom_getElem (oid : Option Nat) (ref : Option String) :
    ∀ (db : List Order) (j i : Nat),
      (setRefStatusFrom j oid ref db)[i]? =
        (db[i]?).map (fun o =>
          if oid = some (i + j) then
            { o with payment_reference := ref, status := "pending_confirm" }
          else o) := by
  intro db
  induction db with
  | nil => intro j i; simp [setRefStatusFrom]
  | cons o rest ih =>
    intro j i
    cases i with
    | zero => simp [setRefStatusFrom]
    | succ n =>
      have harith : n + (j + 1) = n + 1 + j := by omega
      simp [setRefStatusFrom, ih, harith]

theorem getFrom_setStatusFrom_self (s : String) :
    ∀ (db : List Order) (i : Nat) (oid : Int),
      getFrom i oid (setStatusFrom i oid s db) =
        (getFrom i oid db).map (fun o => { o with status := s }) := by
  intro db
  induction db with
  | nil => intro i oid; rfl
  | cons o rest ih =>
    intro i oid
    by_cases hi : (i : Int) = oid
    · simp [getFrom, setStatusFrom, hi]
    · simp [getFrom, setStatusFrom, hi, ih]

theorem getFrom_setStatusFrom_other (s : String) :
    ∀ (db : List Order) (i : Nat) (oid oidq : Int), oidq ≠ oid →
      getFrom i oidq (setStatusFrom i oid s db) = getFrom i oidq db := by
  intro db
  induction db with
  | nil => intro i oid oidq _; rfl
  | cons o rest ih =>
    intro i oid oidq hq
    by_cases h1 : (i : Int) = oidq
    · have h2 : ¬ (i : Int) = oid := fun hh => hq (by rw [← h1, hh])
      simp only [setStatusFrom, getFrom, if_neg h2, if_pos h1]
    · simp only [setStatusFrom, getFrom, if_neg h1]
      exact ih _ _ _ hq

theorem setStatusFrom_of_none (s : String) :
    ∀ (db : List Order) (i : Nat) (oid : Int),
      getFrom i oid db = none → setStatusFrom i oid s db = db := by
  intro db
  induction db with
  | nil => intro i oid _; rfl
  | cons o rest ih =>
    intro i oid h
    by_cases hi : (i : Int) = oid
    · simp [getFrom, hi] at h
    · simp only [getFrom, if_neg hi] at h
      simp [setStatusFrom, hi, ih _ _ h]

theorem choose_template_accept (t : String) (data : SessionData) (db : List Order)
    (h : t ≠ "Cancel") :
    choose_template (.text t) data db =
      ⟨.entering_details, { data with template_choice := some t }, db,
        ["Please describe your requirements (features, deadline, domain, hosting, budget)."]⟩ := by
  simp [choose_template, Event.textOf, h]

theorem details_step_accept (t : String) (data : SessionData) (db : List Order)
    (h : t ≠ "Cancel") :
    details_step (.text t) data db =
      ⟨.uploading_files, { data with details := some t }, db,
        ["If you have files (designs, logos, docs), please send them now. Send \"No files\" if none."]⟩ := by
  simp [details_step, Event.textOf, h]

theorem files_step_accept (ev : Event) (data : SessionData) (db : List Order)
    (h : ∀ x, ev.textOf = some x → x ≠ "Cancel") :
    files_step ev data db =
      ⟨.choosing_payment, { data with files := some (fileTag ev) }, db,
        ["Choose a payment method:"]⟩ := by
  cases ev with
  | text t => simp [files_step, Event.textOf, h t rfl]
  | document n => rfl
  | photo => rfl
  | other => rfl

theorem handle_at_template (admin uid : Nat) (un : String) (data : SessionData)
    (db : List Order) (ev : Event) (now : String)
    (h : ∀ x, ev.textOf = some x → preempts x = false) :
    handle admin uid un .choosing_template data db ev now = choose_template ev data db := by
  cases ev with
  | text t =>
    obtain ⟨hsh, hw, hb⟩ := preempts_eq_false (h t rfl)
    simp [handle, isStartHelpEv, Event.textOf, hsh, hw, hb]
  | document n => rfl
  | photo => rfl
  | other => rfl

theorem handle_at_details (admin uid : Nat) (un : String) (data : SessionData)
    (db : List Order) (ev : Event) (now : String)
    (h : ∀ x, ev.textOf = some x → preempts x = false) :
    handle admin uid un .entering_details data db ev now = details_step ev data db := by
  cases ev with
  | text t =>
    obtain ⟨hsh, hw, hb⟩ := preempts_eq_false (h t rfl)
    simp [handle, isStartHelpEv, Event.textOf, hsh, hw, hb]
  | document n => rfl
  | photo => rfl
  | other => rfl

theorem handle_at_files (admin uid : Nat) (un : String) (data : SessionData)
    (db : List Order) (ev : Event) (now : String)
    (h : ∀ x, ev.textOf = some x → preempts x = false) :
    handle admin uid un .uploading_files data db ev now = files_step ev data db := by
  cases ev with
  | text t =>
    obtain ⟨hsh, hw, hb⟩ := preempts_eq_false (h t rfl)
    simp [handle, isStartHelpEv, Event.textOf, hsh, hw, hb]
  | document n => rfl
  | photo => rfl
  | other => rfl

theorem handle_at_payment (admin uid : Nat) (un : String) (data : SessionData)
    (db : List Order) (ev : Event) (now : String)
    (h : ∀ x, ev.textOf = some x → preempts x = false) :
    handle admin uid un .choosing_payment data db ev now =
      payment_step uid un ev data db now := by
  cases ev with
  | text t =>
    obtain ⟨hsh, hw, hb⟩ := preempts_eq_false (h t rfl)
    simp [handle, isStartHelpEv, Event.textOf, hsh, hw, hb]
  | document n => rfl
  | photo => rfl
  | other => rfl

theorem handle_at_waiting (admin uid : Nat) (un : String) (data : SessionData)
    (db : List Order) (ev : Event) (now : String)
    (h : ∀ x, ev.textOf = some x → preempts x = false) :
    handle admin uid un .waiting_payment_ref data db ev now = waiting_payment ev data db := by
  cases ev with
  | text t =>
    obtain ⟨hsh, hw, hb⟩ := preempts_eq_false (h t rfl)
    simp [handle, isStartHelpEv, Event.textOf, hsh, hw, hb]
  | document n => rfl
  | photo => rfl
  | other => rfl

theorem choose_template_db (ev : Event) (data : SessionData) (db : List Order) :
    (choose_template ev data db).db = db := by
  simp only [choose_template]
  split <;> rfl

theorem details_step_db (ev : Event) (data : SessionData) (db : List Order) :
    (details_step ev data db).db = db := by
  simp only [details_step]
  split <;> rfl

theorem files_step_db (ev : Event) (data : SessionData) (db : List Order) :
    (files_step ev data db).db = db := by
  simp only [files_step]
  split <;> rfl

theorem waiting_payment_db_length (ev : Event) (data : SessionData) (db : List Order) :
    (waiting_payment ev data db).db.length = db.length := by
  simp only [waiting_payment]
  split
  · rfl
  · split
    · rfl
    · simp [setRefStatusFrom_length]

theorem my_orders_db (uid : Nat) (data : SessionData) (db : List Order) :
    (my_orders uid data db).db = db := by
  simp only [my_orders]
  split <;> rfl

theorem admin_list_orders_db (admin uid : Nat) (data : SessionData) (db : List Order) :
    (admin_list_orders admin uid data db).db = db := by
  simp only [admin_list_orders]
  split
  · rfl
  · split <;> rfl

theorem admin_view_order_db (admin uid : Nat) (t : String) (data : SessionData)
    (db : List Order) :
    (admin_view_order admin uid t data db).db = db := by
  simp only [admin_view_order]
  split
  · rfl
  · split
    · rfl
    · split <;> rfl

theorem admin_set_status_db_length (admin uid : Nat) (t : String) (data : SessionData)
    (db : List Order) :
    (admin_set_status admin uid t data db).db.length = db.length := by
  simp only [admin_set_status]
  split
  · rfl
  · split
    · split
      · rfl
      · simp [set_order_status, setStatusFrom_length]
    · rfl

/-- No dispatch from a state other than `choosing_payment` changes the number
of rows in the orders table: order rows are only ever inserted by
`payment_step`. -/
theorem handle_db_length (admin uid : Nat) (un : String) (st : ConvState)
    (data : SessionData) (db : List Order) (ev : Event) (now : String)
    (h : st ≠ ConvState.choosing_payment) :
    (handle admin uid un st data db ev now).db.length = db.length := by
  cases st with
  | choosing_payment => exact absurd rfl h
  | idle =>
    simp only [handle]
    repeat' split
    all_goals
      simp [cmd_start, buy_website, buy_bot, my_orders_db, contact_admin,
        admin_list_orders_db, admin_view_order_db, admin_set_status_db_length]
  | choosing_template =>
    simp only [handle]
    repeat' split
    all_goals simp [cmd_start, buy_website, buy_bot, choose_template_db]
  | entering_details =>
    simp only [handle]
    repeat' split
    all_goals simp [cmd_start, buy_website, buy_bot, details_step_db]
  | uploading_files =>
    simp only [handle]
    repeat' split
    all_goals simp [cmd_start, buy_website, buy_bot, files_step_db]
  | waiting_payment_ref =>
    simp only [handle]
    repeat' split
    all_goals simp [cmd_start, buy_website, buy_bot, waiting_payment_db_length]

theorem runSteps_append (admin uid : Nat) (un : String) (ev : Event) (now : String) :
    ∀ (l : List (Event × String)) (st0 : ConvState) (data0 : SessionData) (db0 : List Order),
      runSteps admin uid un st0 data0 db0 (l ++ [(ev, now)]) =
        ((handle admin uid un (runSteps admin uid un st0 data0 db0 l).1
            (runSteps admin uid un st0 data0 db0 l).2.1
            (runSteps admin uid un st0 data0 db0 l).2.2 ev now).conv,
         (handle admin uid un (runSteps admin uid un st0 data0 db0 l).1
            (runSteps admin uid un st0 data0 db0 l).2.1
            (runSteps admin uid un st0 data0 db0 l).2.2 ev now).data,
         (handle admin uid un (runSteps admin uid un st0 data0 db0 l).1
            (runSteps admin uid un st0 data0 db0 l).2.1
            (runSteps admin uid un st0 data0 db0 l).2.2 ev now).db) := by
  intro l
  induction l with
  | nil => intro st0 data0 db0; rfl
  | cons x rest ih =>
    intro st0 data0 db0
    cases x with
    | mk xev xnow =>
      simp only [List.cons_append, runSteps]
      exact ih _ _ _

theorem payment_step_db (uid : Nat) (un t : String) (data : SessionData)
    (db : List Order) (now : String) (h : t ≠ "Cancel") :
    (payment_step uid un (.text t) data db now).db =
      db ++ [{ user_id := uid, username := un, product_type := data.product_type,
               template_choice := data.template_choice, details := data.details,
               files := data.files,
               price := if data.product_type = some "Website" then 100 else 80,
               payment_method := some t, payment_reference := some "",
               status := "new", created_at := now }] := by
  simp only [payment_step, Event.textOf, Option.some.injEq, save_order]
  rw [if_neg h]
  split
  · rfl
  · split <;> rfl

/-! ## Claims -/

/-- Claim C2: at the `choosing_payment` step, every accepted (non-cancel)
payment-method text creates the order with status `new`, an empty payment
reference, and a price computed by category lookup: the fixed Website price
100 when the accumulated product category is `Website`, and the fixed Bot
price 80 for any other category (including a missing one). -/
theorem c2_order_created_new_with_looked_up_price (uid : Nat) (un t : String)
    (data : SessionData) (db : List Order) (now : String) (h : t ≠ "Cancel") :
    (payment_step uid un (.text t) data db now).db =
      db ++ [{ user_id := uid, username := un, product_type := data.product_type,
               template_choice := data.template_choice, details := data.details,
               files := data.files,
               price := if data.product_type = some "Website" then 100 else 80,
               payment_method := some t, payment_reference := some "",
               status := "new", created_at := now }]
    ∧ (data.product_type = some "Website" →
        ((payment_step uid un (.text t) data db now).db.getLast?).map Order.price = some 100)
    ∧ (data.product_type ≠ some "Website" →
        ((payment_step uid un (.text t) data db now).db.getLast?).map Order.price = some 80) := by
  refine ⟨payment_step_db uid un t data db now h, ?_, ?_⟩
  · intro hW
    rw [payment_step_db uid un t data db now h]
    simp [List.getLast?_concat, hW]
  · intro hW
    rw [payment_step_db uid un t data db now h]
    simp [List.getLast?_concat, hW]

/-- Claim C2 witness: a `Telegram Bot` order paid with the manual method is
persisted with price 80, status `new` and empty reference. -/
theorem c2_witness :
    (payment_step 2 "u" (.text "Manual payment (bank/card)")
        { product_type := some "Telegram Bot", template_choice := some "Custom",
          details := some "need a shop bot", files := some "no files" } [] "t5").db =
      [{ user_id := 2, username := "u", product_type := some "Telegram Bot",
         template_choice := some "Custom", details := some "need a shop bot",
         files := some "no files", price := 80,
         payment_method := some "Manual payment (bank/card)",
         payment_reference := some "", status := "new", created_at := "t5" }] := by
  have h := (c2_order_created_new_with_looked_up_price 2 "u" "Manual payment (bank/card)"
    { product_type := some "Telegram Bot", template_choice := some "Custom",
      details := some "need a shop bot", files := some "no files" } [] "t5" (by decide)).1
  simpa using h

/-- Claim C3: in `waiting_payment_ref`, any text that is neither `Cancel` nor
one of the two intent tokens `I paid` / `Contact Admin` is written to the store
as the payment reference together with status `pending_confirm` in a single
row-targeted update (every other row is untouched, the table length is
unchanged), and the session is cleared back to idle. -/
theorem c3_reference_saved_exactly_once (t : String) (data : SessionData)
    (db : List Order) (h1 : t ≠ "Cancel") (h2 : t ≠ "I paid") (h3 : t ≠ "Contact Admin") :
    (waiting_payment (.text t) data db).conv = .idle
    ∧ (waiting_payment (.text t) data db).data = {}
    ∧ (waiting_payment (.text t) data db).db.length = db.length
    ∧ (∀ i : Nat, (waiting_payment (.text t) data db).db[i]? =
        (db[i]?).map (fun o =>
          if data.order_id = some (i + 1) then
            { o with payment_reference := some t, status := "pending_confirm" }
          else o)) := by
  have hred : waiting_payment (.text t) data db =
      ⟨.idle, {}, setRefStatusFrom 1 data.order_id (some t) db,
        ["Thanks — payment reference saved for order #" ++ optNatStr data.order_id ++
          ". Admin will confirm."]⟩ := by
    simp [waiting_payment, Event.textOf, h1, h2, h3]
  refine ⟨by rw [hred], by rw [hred], ?_, ?_⟩
  · rw [hred]
    exact setRefStatusFrom_length data.order_id (some t) db 1
  · intro i
    rw [hred]
    exact setRefStatusFrom_getElem data.order_id (some t) db 1 i

/-- Claim C3 witness: the reference text `0xabc123` is recorded on the session
order (id 1) with status `pending_confirm`, and the session returns to idle. -/
theorem c3_witness :
    (waiting_payment (.text "0xabc123") { order_id := some 1 } [sampleOrder]).conv = .idle
    ∧ (waiting_payment (.text "0xabc123") { order_id := some 1 } [sampleOrder]).db[0]? =
      some { sampleOrder with payment_reference := some "0xabc123",
                              status := "pending_confirm" } := by
  have h := c3_reference_saved_exactly_once "0xabc123" { order_id := some 1 } [sampleOrder]
    (by decide) (by decide) (by decide)
  refine ⟨h.1, ?_⟩
  have h4 := h.2.2.2 0
  simpa using h4

/-- Claim C4: in every state before completion of `choosing_payment`
(`choosing_template`, `entering_details`, `uploading_files` and
`choosing_payment` itself), a `Cancel` input clears the whole session back to
idle and leaves the orders table exactly as it was: no row is written. -/
theorem c4_cancel_before_completion_writes_nothing (admin uid : Nat) (un : String)
    (st : ConvState) (data : SessionData) (db : List Order) (now : String)
    (h : st = ConvState.choosing_template ∨ st = ConvState.entering_details ∨
         st = ConvState.uploading_files ∨ st = ConvState.choosing_payment) :
    handle admin uid un st data db (.text "Cancel") now =
      ⟨.idle, {}, db, ["Order cancelled."]⟩ := by
  rcases h with h | h | h | h <;> subst h <;> rfl

/-- Claim C4 witness: cancelling while entering details drops the accumulated
session fields and leaves the store untouched. -/
theorem c4_witness :
    handle 1 2 "u" ConvState.entering_details
        { product_type := some "Website", template_choice := some "Custom" }
        [sampleOrder] (.text "Cancel") "t3" =
      ⟨.idle, {}, [sampleOrder], ["Order cancelled."]⟩ :=
  c4_cancel_before_completion_writes_nothing 1 2 "u" ConvState.entering_details
    { product_type := some "Website", template_choice := some "Custom" }
    [sampleOrder] "t3" (Or.inr (Or.inl rfl))

/-- Claim C5: in `waiting_payment_ref`, a `Cancel` input clears the session to
idle and returns the orders table unchanged — in particular the previously
created order keeps whatever row it had, e.g. status `new` and empty payment
reference. -/
theorem c5_cancel_at_waiting_keeps_order (admin uid : Nat) (un : String)
    (data : SessionData) (db : List Order) (now : String) :
    handle admin uid un ConvState.waiting_payment_ref data db (.text "Cancel") now =
      ⟨.idle, {}, db, ["Order cancelled. You can start again from main menu."]⟩ := rfl

/-- Claim C6: `set_order_status` unconditionally overwrites the status of the
addressed row with the given arbitrary string, leaving its other fields and all
other rows unchanged, and is a silent no-op (the table is returned unchanged)
when no row has the given id. -/
theorem c6_set_status_unconditional_overwrite (db : List Order) (oid : Int) (s : String) :
    (set_order_status db oid s).length = db.length
    ∧ (∀ o, get_order db oid = some o →
        get_order (set_order_status db oid s) oid = some { o with status := s })
    ∧ (∀ q : Int, q ≠ oid → get_order (set_order_status db oid s) q = get_order db q)
    ∧ (get_order db oid = none → set_order_status db oid s = db) := by
  refine ⟨setStatusFrom_length oid s db 1, ?_, ?_, ?_⟩
  · intro o h
    unfold get_order set_order_status at *
    rw [getFrom_setStatusFrom_self, h]
    rfl
  · intro q hq
    unfold get_order set_order_status
    exact getFrom_setStatusFrom_other s db 1 oid q hq
  · intro h
    unfold get_order at h
    unfold set_order_status
    exact setStatusFrom_of_none s db 1 oid h

/-- Claim C6 witness: setting status `shipped` on order 1 is read back as
`shipped` with every other field intact, and setting it on the non-existent id
2 leaves the single-row store unchanged (and raises nothing: the function is
total). -/
theorem c6_witness :
    get_order (set_order_status [sampleOrder] 1 "shipped") 1 =
      some { sampleOrder with status := "shipped" }
    ∧ set_order_status [sampleOrder] 2 "shipped" = [sampleOrder] := by
  constructor
  · exact (c6_set_status_unconditional_overwrite [sampleOrder] 1 "shipped").2.1
      sampleOrder (by rfl)
  · exact (c6_set_status_unconditional_overwrite [sampleOrder] 2 "shipped").2.2.2 (by decide)

/-- Claim C7 counterexample: the claim says an unrecognized input at idle is
answered by re-displaying the main menu.  In the code no handler matches such a
message, so it is silently ignored: dispatching the text `hello` at idle
produces no reply at all (`replies = []`), not a menu re-display. -/
theorem c7_counterexample :
    handle 1 2 "u" ConvState.idle {} [] (.text "hello") "t0" =
      ⟨.idle, {}, [], []⟩ := rfl

/-- Claim C7 amended: in the idle state, every text input recognized by no
handler is silently ignored — no reply is produced (in particular the main menu
is not re-displayed), the session stays idle with its data untouched and the
store unchanged — and likewise for every non-text message; no input at idle
ever errors (the dispatch is total). -/
theorem c7_idle_unrecognized_is_silently_ignored (admin uid : Nat) (un : String)
    (data : SessionData) (db : List Order) (now t : String)
    (h : recognizedAtIdle t = false) :
    handle admin uid un ConvState.idle data db (.text t) now = ⟨.idle, data, db, []⟩
    ∧ (∀ ev : Event, ev.textOf = none →
        handle admin uid un ConvState.idle data db ev now = ⟨.idle, data, db, []⟩) := by
  simp only [recognizedAtIdle, Bool.or_eq_false_iff, beq_eq_false_iff_ne, ne_eq] at h
  obtain ⟨⟨⟨⟨⟨⟨⟨h1, h2⟩, h3⟩, h4⟩, h5⟩, h6⟩, h7⟩, h8⟩ := h
  constructor
  · simp [handle, isStartHelpEv, Event.textOf, h1, h2, h3, h4, h5, h6, h7, h8]
  · intro ev hev
    cases ev with
    | text t2 => simp [Event.textOf] at hev
    | document n => rfl
    | photo => rfl
    | other => rfl

/-- Claim C7 witness: a plain greeting at idle with a non-trivial session and
store is ignored without touching either. -/
theorem c7_witness :
    handle 1 2 "u" ConvState.idle { product_type := some "Website" } [sampleOrder]
        (.text "good morning") "t0" =
      ⟨.idle, { product_type := some "Website" }, [sampleOrder], []⟩ :=
  (c7_idle_unrecognized_is_silently_ignored 1 2 "u" { product_type := some "Website" }
    [sampleOrder] "t0" "good morning" (by decide)).1

/-- Claim C8 counterexample: the claim says the fallback attachment descriptor
is the §3 tag `other`; the code records the tag `files:other` instead
(`files_info = 'files:other'`), which differs from `other`. -/
theorem c8_counterexample :
    (files_step (.text "here are some sketches") {} []).data.files = some "files:other"
    ∧ some "files:other" ≠ some "other" := by
  constructor
  · rfl
  · decide

/-- Claim C8 amended: in `uploading_files`, every non-cancel input advances to
`choosing_payment` and records an attachment descriptor drawn from the tag set
actually produced by the code: `document:<name>` for a document,
`photo` for a photo, `no files` for the literal non-empty text `no files`
compared case-insensitively, and `files:other` (not `other`) for anything
else; the step never rejects an input. -/
theorem c8_files_descriptor_classification (ev : Event) (data : SessionData)
    (db : List Order) (h : ∀ x, ev.textOf = some x → x ≠ "Cancel") :
    files_step ev data db =
      ⟨.choosing_payment, { data with files := some (fileTag ev) }, db,
        ["Choose a payment method:"]⟩
    ∧ (∀ name, fileTag (.document name) = "document:" ++ name)
    ∧ fileTag .photo = "photo"
    ∧ (∀ t, t ≠ "" → lowerStr t = "no files" → fileTag (.text t) = "no files")
    ∧ (∀ t, ¬ (t ≠ "" ∧ lowerStr t = "no files") → fileTag (.text t) = "files:other")
    ∧ fileTag .other = "files:other" := by
  refine ⟨files_step_accept ev data db h, fun name => rfl, rfl, ?_, ?_, rfl⟩
  · intro t h1 h2
    simp only [fileTag]
    rw [if_pos ⟨h1, h2⟩]
  · intro t hn
    simp only [fileTag]
    rw [if_neg hn]

/-- Claim C8 witness: a document event advances the step and records the
`document:<name>` descriptor. -/
theorem c8_witness :
    files_step (.document "logo.png") {} [] =
      ⟨.choosing_payment, { files := some "document:logo.png" }, [],
        ["Choose a payment method:"]⟩ := by
  have h := (c8_files_descriptor_classification (.document "logo.png") {} []
    (fun x hx => Option.noConfusion hx)).1
  simpa [fileTag] using h

/-- Claim C9: payment routing at `choosing_payment` is by substring containment
in a fixed order: a non-cancel text containing `USDT` goes to the USDT family
(even if it also contains `Manual`), otherwise one containing `Manual` goes to
the manual family (both record the new order id and wait for a reference); any
other text is still accepted, stored verbatim as the order's payment method,
and routed to the fallback family that clears the session immediately. -/
theorem c9_payment_routing_by_substring (uid : Nat) (un t : String)
    (data : SessionData) (db : List Order) (now : String) (h : t ≠ "Cancel") :
    (payment_step uid un (.text t) data db now).db =
      db ++ [{ user_id := uid, username := un, product_type := data.product_type,
               template_choice := data.template_choice, details := data.details,
               files := data.files,
               price := if data.product_type = some "Website" then 100 else 80,
               payment_method := some t, payment_reference := some "",
               status := "new", created_at := now }]
    ∧ (strHas "USDT" t = true →
        (payment_step uid un (.text t) data db now).conv = .waiting_payment_ref
        ∧ (payment_step uid un (.text t) data db now).data =
            { data with payment_method := some t, order_id := some (db.length + 1) })
    ∧ (strHas "USDT" t = false → strHas "Manual" t = true →
        (payment_step uid un (.text t) data db now).conv = .waiting_payment_ref
        ∧ (payment_step uid un (.text t) data db now).data =
            { data with payment_method := some t, order_id := some (db.length + 1) })
    ∧ (strHas "USDT" t = false → strHas "Manual" t = false →
        (payment_step uid un (.text t) data db now).conv = .idle
        ∧ (payment_step uid un (.text t) data db now).data = {}) := by
  refine ⟨payment_step_db uid un t data db now h, ?_, ?_, ?_⟩
  · intro hU
    constructor <;> simp [payment_step, Event.textOf, h, hU, save_order]
  · intro hU hM
    constructor <;> simp [payment_step, Event.textOf, h, hU, hM, save_order]
  · intro hU hM
    constructor <;> simp [payment_step, Event.textOf, h, hU, hM, save_order]

/-- Claim C9 witness: a text containing both `USDT` and `Manual` is routed to
the USDT family (checked first), recording the new order id. -/
theorem c9_witness :
    (payment_step 2 "u" (.text "USDT or Manual") {} [] "t5").conv = .waiting_payment_ref
    ∧ (payment_step 2 "u" (.text "USDT or Manual") {} [] "t5").data =
      { payment_method := some "USDT or Manual", order_id := some 1 } := by
  have h := (c9_payment_routing_by_substring 2 "u" "USDT or Manual" {} [] "t5"
    (by decide)).2.1 (by decide)
  simpa using h

/-- Claim C10: each of the three admin operations — list all orders
(`/orders`), view one order (`/order_<id>`), force-set a status
(`/setstatus ...`) — returns without any effect when the sender is not the
single privileged identity: no reply, orders table unchanged, session state
and data untouched. -/
theorem c10_non_admin_commands_have_no_effect (admin uid : Nat) (un : String)
    (data : SessionData) (db : List Order) (now t : String)
    (hne : uid ≠ admin) (hnp : preempts t = false)
    (hm : t ≠ "📦 My Orders") (hc : t ≠ "💬 Contact Admin")
    (_hcmd : firstToken t = "/orders" ∨ strStarts "/order_" t = true ∨
             strStarts "/setstatus" t = true) :
    handle admin uid un ConvState.idle data db (.text t) now = ⟨.idle, data, db, []⟩ := by
  obtain ⟨h1, h2, h3⟩ := preempts_eq_false hnp
  have ha : admin_list_orders admin uid data db = ⟨.idle, data, db, []⟩ := by
    simp [admin_list_orders, hne]
  have hb : admin_view_order admin uid t data db = ⟨.idle, data, db, []⟩ := by
    simp [admin_view_order, hne]
  have hcc : admin_set_status admin uid t data db = ⟨.idle, data, db, []⟩ := by
    simp [admin_set_status, hne]
  simp only [handle, isStartHelpEv, Event.textOf, h1, Bool.false_eq_true, if_false,
    Option.some.injEq, ha, hb, hcc]
  rw [if_neg h2, if_neg h3, if_neg hm, if_neg hc]
  split
  · rfl
  · split
    · rfl
    · split
      · rfl
      · rfl

/-- Claim C10 witness: a non-admin `/orders` at idle produces no reply and
leaves the store and session untouched. -/
theorem c10_witness :
    handle 1 2 "u" ConvState.idle { product_type := some "Website" } [sampleOrder]
        (.text "/orders") "t0" =
      ⟨.idle, { product_type := some "Website" }, [sampleOrder], []⟩ :=
  c10_non_admin_commands_have_no_effect 1 2 "u" { product_type := some "Website" }
    [sampleOrder] "t0" "/orders" (by decide) (by decide) (by decide) (by decide)
    (Or.inl (by decide))

/-- Claim C1: completing the conversation from idle through `choosing_payment`
with a non-cancel payment-method text inserts exactly one order row — the final
table is the initial table with a single appended row produced by one insert —
whose persisted fields (product category, template choice, details, attachment
descriptor, payment method) equal the session fields accumulated at that
moment; before the payment step the table is untouched, and no dispatch from
any state other than `choosing_payment` ever changes the number of rows. -/
theorem c1_order_row_iff_payment_selected (admin uid : Nat) (un : String)
    (db0 : List Order) (catBtn catName tmpl det pay : String) (fEv : Event)
    (n1 n2 n3 n4 n5 : String)
    (hcat : (catBtn = "🌐 Buy a Website" ∧ catName = "Website") ∨
            (catBtn = "🤖 Buy a Telegram Bot" ∧ catName = "Telegram Bot"))
    (htmpl : preempts tmpl = false) (htmplc : tmpl ≠ "Cancel")
    (hdet : preempts det = false) (hdetc : det ≠ "Cancel")
    (hf : ∀ x, fEv.textOf = some x → preempts x = false ∧ x ≠ "Cancel")
    (hpay : preempts pay = false) (hpayc : pay ≠ "Cancel") :
    runSteps admin uid un ConvState.idle {} db0
        [(.text catBtn, n1), (.text tmpl, n2), (.text det, n3), (fEv, n4)] =
      (ConvState.choosing_payment,
       { product_type := some catName, template_choice := some tmpl,
         details := some det, files := some (fileTag fEv) },
       db0)
    ∧ (runSteps admin uid un ConvState.idle {} db0
        [(.text catBtn, n1), (.text tmpl, n2), (.text det, n3), (fEv, n4),
         (.text pay, n5)]).2.2 =
      db0 ++ [{ user_id := uid, username := un, product_type := some catName,
                template_choice := some tmpl, details := some det,
                files := some (fileTag fEv),
                price := if catName = "Website" then 100 else 80,
                payment_method := some pay, payment_reference := some "",
                status := "new", created_at := n5 }]
    ∧ (∀ (st : ConvState) (data : SessionData) (db : List Order) (ev : Event) (n : String),
        st ≠ ConvState.choosing_payment →
        (handle admin uid un st data db ev n).db.length = db.length) := by
  have hft : ∀ x, (Event.text tmpl).textOf = some x → preempts x = false := by
    intro x hx
    simp [Event.textOf] at hx
    exact hx ▸ htmpl
  have hfd : ∀ x, (Event.text det).textOf = some x → preempts x = false := by
    intro x hx
    simp [Event.textOf] at hx
    exact hx ▸ hdet
  have hfp : ∀ x, (Event.text pay).textOf = some x → preempts x = false := by
    intro x hx
    simp [Event.textOf] at hx
    exact hx ▸ hpay
  have h4 : runSteps admin uid un ConvState.idle {} db0
      [(.text catBtn, n1), (.text tmpl, n2), (.text det, n3), (fEv, n4)] =
      (ConvState.choosing_payment,
       { product_type := some catName, template_choice := some tmpl,
         details := some det, files := some (fileTag fEv) },
       db0) := by
    have e2 : ∀ data : SessionData,
        handle admin uid un ConvState.choosing_template data db0 (.text tmpl) n2 =
          ⟨.entering_details, { data with template_choice := some tmpl }, db0,
            ["Please describe your requirements (features, deadline, domain, hosting, budget)."]⟩ := by
      intro data
      rw [handle_at_template admin uid un data db0 (.text tmpl) n2 hft]
      exact choose_template_accept tmpl data db0 htmplc
    have e3 : ∀ data : SessionData,
        handle admin uid un ConvState.entering_details data db0 (.text det) n3 =
          ⟨.uploading_files, { data with details := some det }, db0,
            ["If you have files (designs, logos, docs), please send them now. Send \"No files\" if none."]⟩ := by
      intro data
      rw [handle_at_details admin uid un data db0 (.text det) n3 hfd]
      exact details_step_accept det data db0 hdetc
    have e4 : ∀ data : SessionData,
        handle admin uid un ConvState.uploading_files data db0 fEv n4 =
          ⟨.choosing_payment, { data with files := some (fileTag fEv) }, db0,
            ["Choose a payment method:"]⟩ := by
      intro data
      rw [handle_at_files admin uid un data db0 fEv n4 (fun x hx => (hf x hx).1)]
      exact files_step_accept fEv data db0 (fun x hx => (hf x hx).2)
    rcases hcat with ⟨hb, hn⟩ | ⟨hb, hn⟩ <;> subst hb <;> subst hn
    · simp only [runSteps]
      rw [show handle admin uid un ConvState.idle {} db0 (.text "🌐 Buy a Website") n1 =
        buy_website {} db0 from rfl]
      simp only [buy_website]
      rw [e2]
      dsimp only
      rw [e3]
      dsimp only
      rw [e4]
    · simp only [runSteps]
      rw [show handle admin uid un ConvState.idle {} db0 (.text "🤖 Buy a Telegram Bot") n1 =
        buy_bot {} db0 from rfl]
      simp only [buy_bot]
      rw [e2]
      dsimp only
      rw [e3]
      dsimp only
      rw [e4]
  refine ⟨h4, ?_, fun st data db ev n hst => handle_db_length admin uid un st data db ev n hst⟩
  rw [show [((.text catBtn : Event), n1), (.text tmpl, n2), (.text det, n3), (fEv, n4),
      (.text pay, n5)] =
    [((.text catBtn : Event), n1), (.text tmpl, n2), (.text det, n3), (fEv, n4)] ++
      [(.text pay, n5)] from rfl]
  rw [runSteps_append, h4]
  dsimp only
  rw [handle_at_payment admin uid un _ db0 (.text pay) n5 hfp]
  rw [payment_step_db uid un pay _ db0 n5 hpayc]
  have hprice : ∀ c : String,
      (if (some c : Option String) = some "Website" then (100 : ℚ) else 80) =
        if c = "Website" then 100 else 80 := by
    intro c
    by_cases hc : c = "Website" <;> simp [hc]
  simp only [hprice]

/-- Claim C1 witness: the canonical happy path — Website, template `Custom`,
details, `no files`, USDT — starting from an empty store yields exactly the one
expected row. -/
theorem c1_witness :
    (runSteps 1 2 "u" ConvState.idle {} []
        [(.text "🌐 Buy a Website", "t1"), (.text "Custom", "t2"),
         (.text "need 5 pages", "t3"), (.text "no files", "t4"),
         (.text "USDT (TRC20) — pay on Tron network", "t5")]).2.2 =
      [{ user_id := 2, username := "u", product_type := some "Website",
         template_choice := some "Custom", details := some "need 5 pages",
         files := some "no files", price := 100,
         payment_method := some "USDT (TRC20) — pay on Tron network",
         payment_reference := some "", status := "new", created_at := "t5" }] := by
  have h := (c1_order_row_iff_payment_selected 1 2 "u" [] "🌐 Buy a Website" "Website"
    "Custom" "need 5 pages" "USDT (TRC20) — pay on Tron network" (.text "no files")
    "t1" "t2" "t3" "t4" "t5" (Or.inl ⟨rfl, rfl⟩) (by decide) (by decide) (by decide)
    (by decide)
    (by intro x hx
        simp [Event.textOf] at hx
        subst hx
        exact ⟨by decide, by decide⟩)
    (by decide) (by decide)).2.1
  simpa [fileTag] using h

end MarketplaceBot
